import Mathlib

/-!
Verification of the Mux Data client library (mux-node-sdk) against its
natural-language specification.

The embedding covers:
* the resource wrapper methods of `src/data/resources/real_time.ts`,
  `errors.ts` and `video_views.ts`, translated directly from the source;
* the shared credentialed HTTP client facade (`Base`), whose source file is
  not part of the repository snapshot — only its unit tests
  (`test/unit/base.spec.cjs`) and its callers are.  The facade is therefore
  modelled from the specification's construction contract, with the concrete
  strings (environment variable names, error messages, header values, base
  URL) pinned by the unit-test file.

JavaScript truthiness on strings is modelled by `String.isEmpty` (the empty
string is the only falsy string value of type `string`); an absent optional
value is `Option.none`.
-/

namespace Mux

/-- A single call issued through the shared transport.  `get path params?`
models `this.http.get(path)` when `params? = none` and
`this.http.get(path, { params })` when `params? = some params` (the inner
`params` value may itself be absent, mirroring an `undefined` argument
forwarded verbatim). -/
inductive HttpCall (P : Type) where
  | get (path : String) (params : Option (Option P))
  deriving DecidableEq, Repr

/-- JavaScript falsiness of an optional string: `!x` is true when `x` is
`undefined` or the empty string. -/
def strFalsy : Option String → Bool
  | none => true
  | some s => s.isEmpty

/-- Query parameters of `RealTime.breakdown`
(`RealTimeBreakdownQueryParams` in `domain.ts`): only `dimension` is ever
inspected by the wrapper; `timestamp` and `filters` are passed through. -/
structure RealTimeBreakdownQueryParams where
  dimension : Option String
  timestamp : Option Int
  filters : Option (List String)
  deriving DecidableEq, Repr

/-- Query parameters of `RealTime.histogramTimeseries`. -/
structure RealTimeHistogramQueryParams where
  filters : Option (List String)
  deriving DecidableEq, Repr

/-- Query parameters of `RealTime.timeseries`. -/
structure RealTimeTimeseriesParams where
  filters : Option (List String)
  deriving DecidableEq, Repr

/-- Query parameters of `Errors.list`. -/
structure ErrorsParams where
  timeframe : Option (List String)
  filters : Option (List String)
  deriving DecidableEq, Repr

/-- Query parameters of `VideoViews.list`. -/
structure VideoViewsQueryParams where
  viewer_id : Option String
  timeframe : Option (List String)
  filters : Option (List String)
  order_direction : Option String
  deriving DecidableEq, Repr

/-- `const PATH = '/data/v1/realtime'` in `real_time.ts`. -/
def realTimePATH : String := "/data/v1/realtime"

/-- `const PATH = '/data/v1/errors'` in `errors.ts`. -/
def errorsPATH : String := "/data/v1/errors"

/-- `const PATH = '/data/v1/video-views'` in `video_views.ts`. -/
def videoViewsPATH : String := "/data/v1/video-views"

/-- `RealTime.dimensions()`: `return this.http.get(PATH + '/dimensions')`. -/
def RealTime.dimensions : Except String (List (HttpCall Unit)) :=
  .ok [.get (realTimePATH ++ "/dimensions") none]

/-- `RealTime.metrics()`: `return this.http.get(PATH + '/metrics')`. -/
def RealTime.metrics : Except String (List (HttpCall Unit)) :=
  .ok [.get (realTimePATH ++ "/metrics") none]

/-- The guard `!params || (params && !params.dimension)` of
`RealTime.breakdown`. -/
def dimensionMissing : Option RealTimeBreakdownQueryParams → Bool
  | none => true
  | some p => strFalsy p.dimension

/-- `RealTime.breakdown(metricId, params?)` from `real_time.ts`:
throws on falsy `metricId`, then on a missing `dimension` query parameter,
otherwise issues one GET to `PATH + '/metrics/' + metricId + '/breakdown'`
with `{ params }`. -/
def RealTime.breakdown (metricId : String)
    (params : Option RealTimeBreakdownQueryParams) :
    Except String (List (HttpCall RealTimeBreakdownQueryParams)) :=
  if metricId.isEmpty then
    .error "A metric Id is required for real-time breakdown information"
  else if dimensionMissing params then
    .error "The dimension query parameter is required for real-time breakdown information"
  else
    .ok [.get (realTimePATH ++ "/metrics/" ++ metricId ++ "/breakdown")
          (some params)]

/-- `RealTime.histogramTimeseries(metricId, params?)` from `real_time.ts`. -/
def RealTime.histogramTimeseries (metricId : String)
    (params : Option RealTimeHistogramQueryParams) :
    Except String (List (HttpCall RealTimeHistogramQueryParams)) :=
  if metricId.isEmpty then
    .error "A metric Id is required for real-time histogram timeseries information"
  else
    .ok [.get (realTimePATH ++ "/metrics/" ++ metricId ++ "/histogram-timeseries")
          (some params)]

/-- `RealTime.timeseries(metricId, params?)` from `real_time.ts`. -/
def RealTime.timeseries (metricId : String)
    (params : Option RealTimeTimeseriesParams) :
    Except String (List (HttpCall RealTimeTimeseriesParams)) :=
  if metricId.isEmpty then
    .error "A metric Id is required for real-time timeseries information."
  else
    .ok [.get (realTimePATH ++ "/metrics/" ++ metricId ++ "/timeseries")
          (some params)]

/-- `Errors.list(params?)` from `errors.ts`: unconditionally
`return this.http.get(PATH, { params })`. -/
def Errors.list (params : Option ErrorsParams) :
    Except String (List (HttpCall ErrorsParams)) :=
  .ok [.get errorsPATH (some params)]

/-- `VideoViews.list(params?)` from `video_views.ts`: unconditionally
`return this.http.get(PATH, { params })`. -/
def VideoViews.list (params : Option VideoViewsQueryParams) :
    Except String (List (HttpCall VideoViewsQueryParams)) :=
  .ok [.get videoViewsPATH (some params)]

/-- `VideoViews.get(videoViewId)` from `video_views.ts`: throws on a falsy
id, otherwise issues one GET to `PATH + '/' + videoViewId`. -/
def VideoViews.get (videoViewId : String) :
    Except String (List (HttpCall Unit)) :=
  if videoViewId.isEmpty then
    .error "A video view Id is required for video view details."
  else
    .ok [.get (videoViewsPATH ++ "/" ++ videoViewId) none]

/- ------------------------------------------------------------------ -/
/- The shared credentialed HTTP client facade (`Base`).                 -/
/- ------------------------------------------------------------------ -/

/-- Platform metadata (`options.platform`): an optional (name, version)
pair describing the embedding application. -/
structure Platform where
  name : Option String
  version : Option String
  deriving DecidableEq, Repr

/-- The named-field options object accepted by the `Base` constructor. -/
structure BaseOptions where
  tokenId : Option String
  tokenSecret : Option String
  platform : Option Platform
  deriving DecidableEq, Repr

/-- The two designated credential environment variables
(`MUX_TOKEN_ID`, `MUX_TOKEN_SECRET`), as a snapshot taken at
construction time. -/
structure Env where
  muxTokenId : Option String
  muxTokenSecret : Option String
  deriving DecidableEq, Repr

/-- The configured HTTP transport owned by a facade instance: fixed base
URL, basic-auth credential pair, and a headers map
(`baseClient.http.defaults` in the tests). -/
structure Transport where
  baseURL : String
  authUsername : Option String
  authPassword : Option String
  headers : List (String × String)
  deriving DecidableEq, Repr

/-- A constructed facade instance: resolved credentials plus the transport
(`baseClient.tokenId`, `baseClient.tokenSecret`, `baseClient.http`). -/
structure BaseClient where
  tokenId : Option String
  tokenSecret : Option String
  http : Transport
  deriving DecidableEq, Repr

/-- The four shapes of argument list accepted by `new Base(...)`:
no arguments, a prior facade instance, two positional token values, or an
options object. -/
inductive BaseParams where
  | noArgs
  | fromParent (parent : BaseClient)
  | fromPair (tokenId tokenSecret : String)
  | fromOptions (opts : BaseOptions)
  deriving DecidableEq, Repr

/-- Whether a string contains the pipe character, over its character
list. -/
def containsPipe (s : String) : Bool := s.data.contains '|'

/-- Modelled from the spec: `base.ts` is absent from the snapshot.  The
constructor-time platform-metadata validation and the diagnostic header.
"fail immediately ... when the name field contains a pipe character, and
separately when the version field contains a pipe character";
`x-source-platform` is `"{name} | {version}"`, emitted only when a name was
provided, with the literal placeholder `undefined` for an absent version
(the placeholder string and the two error messages are pinned by
`test/unit/base.spec.cjs`). -/
def buildPlatformHeaders : Option Platform → Except String (List (String × String))
  | none => .ok []
  | some p =>
    if containsPipe (p.name.getD "") then
      .error "Platform name cannot contain a \"|\" value."
    else if containsPipe (p.version.getD "") then
      .error "Platform version cannot contain a \"|\" value."
    else
      match p.name with
      | none => .ok []
      | some n => .ok [("x-source-platform", n ++ " | " ++ p.version.getD "undefined")]

/-- Modelled from the spec: credential resolution precedence of the `Base`
constructor — (1) a prior facade instance: copy its resolved credentials
verbatim; (2) two positional values; (3) named fields of an options object;
(4) fall back to the two environment variables, per field, when no explicit
value was supplied.  Returns the resolved (tokenId, tokenSecret). -/
def resolveCredentials : BaseParams → Env → Option String × Option String
  | .noArgs, env => (env.muxTokenId, env.muxTokenSecret)
  | .fromParent p, _ => (p.tokenId, p.tokenSecret)
  | .fromPair tid tsec, _ => (some tid, some tsec)
  | .fromOptions o, env =>
      (o.tokenId.orElse fun _ => env.muxTokenId,
       o.tokenSecret.orElse fun _ => env.muxTokenSecret)

/-- The platform metadata carried by a given argument shape (only the
options form carries any). -/
def platformOf : BaseParams → Option Platform
  | .fromOptions o => o.platform
  | _ => none

/-- The fixed production base URL (`https://api.mux.com`, pinned by
`test/unit/base.spec.cjs`). -/
def muxBaseURL : String := "https://api.mux.com"

/-- Modelled from the spec: the `Base` constructor.  Resolves credentials by
precedence, validates platform metadata (the only two synchronous failure
conditions), and produces a ready transport with the base URL, basic-auth
pair and optional diagnostic header.  Missing credentials never fail at
construction time. -/
def mkBase (args : BaseParams) (env : Env) : Except String BaseClient :=
  let creds := resolveCredentials args env
  match buildPlatformHeaders (platformOf args) with
  | .error e => .error e
  | .ok hs =>
      .ok { tokenId := creds.1
            tokenSecret := creds.2
            http := { baseURL := muxBaseURL
                      authUsername := creds.1
                      authPassword := creds.2
                      headers := hs } }

/-- Lookup of the `x-source-platform` header on a client's transport. -/
def sourcePlatformHeader (c : BaseClient) : Option String :=
  (c.http.headers.find? fun h => h.1 = "x-source-platform").map Prod.snd

/- ------------------------------------------------------------------ -/
/- Observability hook: per-call event trace.                           -/
/- ------------------------------------------------------------------ -/

/-- The outgoing request descriptor delivered to `request` listeners:
method, url (path), baseURL and the basic-auth pair. -/
structure RequestDescriptor where
  method : String
  url : String
  baseURL : String
  authUsername : Option String
  authPassword : Option String
  deriving DecidableEq, Repr

/-- The response descriptor delivered to `response` listeners. -/
structure ResponseDescriptor where
  status : Nat
  body : String
  deriving DecidableEq, Repr

/-- An event broadcast on one of the two channels of the facade. -/
inductive BaseEvent where
  | request (r : RequestDescriptor)
  | response (r : ResponseDescriptor)
  deriving DecidableEq, Repr

/-- Modelled from the spec: `base.ts` is absent from the snapshot.  The
event trace of one GET call issued through a facade instance: the `request`
event is fired synchronously before the HTTP call is dispatched, carrying
the outgoing request descriptor (method, url, baseURL, auth), and the
`response` event is fired when the call resolves, carrying status and body.
A listener registered on a channel is invoked once per event broadcast on
that channel. -/
def callTrace (c : BaseClient) (path : String) (status : Nat) (body : String) :
    List BaseEvent :=
  [ .request { method := "get"
               url := path
               baseURL := c.http.baseURL
               authUsername := c.http.authUsername
               authPassword := c.http.authPassword },
    .response { status := status, body := body } ]

/-- Whether an event is broadcast on the `request` channel. -/
def isRequestEvent : BaseEvent → Bool
  | .request _ => true
  | .response _ => false

/-- Whether an event is broadcast on the `response` channel. -/
def isResponseEvent : BaseEvent → Bool
  | .request _ => false
  | .response _ => true

/-- Number of times a single listener registered on the `request` channel
is invoked over a trace. -/
def requestListenerInvocations (t : List BaseEvent) : Nat :=
  (t.filter isRequestEvent).length

/-- Number of times a single listener registered on the `response` channel
is invoked over a trace. -/
def responseListenerInvocations (t : List BaseEvent) : Nat :=
  (t.filter isResponseEvent).length

/-- A transport result is a single GET call: the successful branch of every
wrapper method issues exactly one `http.get` and returns its promise. -/
def isSingleGet {P : Type} : List (HttpCall P) → Prop
  | [HttpCall.get _ _] => True
  | _ => False

instance {P : Type} (l : List (HttpCall P)) : Decidable (isSingleGet l) := by
  unfold isSingleGet
  rcases l with _ | ⟨⟨_, _⟩, _ | _⟩ <;> simp <;> infer_instance

/-- Whether a wrapper-method result is a synchronous throw. -/
def isThrow {P : Type} : Except String (List (HttpCall P)) → Bool
  | .error _ => true
  | .ok _ => false

/-- When a wrapper-method result is not a throw, it consists of exactly one
GET issued through the shared transport. -/
def okIsSingleGet {P : Type} (r : Except String (List (HttpCall P))) : Prop :=
  match r with
  | .ok calls => isSingleGet calls
  | .error _ => True

/- ------------------------------------------------------------------ -/
/- Theorems.                                                           -/
/- ------------------------------------------------------------------ -/

/-- C1: for every (token identifier, token secret) pair passed as explicit
constructor arguments, the constructed client's resolved credentials equal
exactly those arguments, regardless of what values the two credential
environment variables hold at construction time. -/
theorem C1_explicit_args_win (tid tsec : String) (env : Env) :
    ∃ c, mkBase (.fromPair tid tsec) env = .ok c
      ∧ c.tokenId = some tid ∧ c.tokenSecret = some tsec :=
  ⟨_, rfl, rfl, rfl⟩

/-- C2: with no constructor arguments, the resolved credentials equal the
two designated environment variables at construction time; when neither
source supplies a value the credentials are `none` and construction still
succeeds without throwing. -/
theorem C2_env_fallback :
    (∀ env : Env, ∃ c, mkBase .noArgs env = .ok c
       ∧ c.tokenId = env.muxTokenId ∧ c.tokenSecret = env.muxTokenSecret)
    ∧ (∃ c, mkBase .noArgs ⟨none, none⟩ = .ok c
       ∧ c.tokenId = none ∧ c.tokenSecret = none) :=
  ⟨fun _ => ⟨_, rfl, rfl, rfl⟩, _, rfl, rfl, rfl⟩

/-- C3: constructing a facade from a prior facade instance yields a client
whose resolved tokenId and tokenSecret are identical to the prior
instance's, whatever the environment holds. -/
theorem C3_parent_inherit (p : BaseClient) (env : Env) :
    ∃ c, mkBase (.fromParent p) env = .ok c
      ∧ c.tokenId = p.tokenId ∧ c.tokenSecret = p.tokenSecret :=
  ⟨_, rfl, rfl, rfl⟩

/-- C4: construction throws exactly when supplied platform metadata has a
pipe in the name (with the name-identifying message) or, failing that, a
pipe in the version (with the version-identifying message); in every other
case — any argument shape, any credentials, any environment — construction
succeeds. -/
theorem C4_pipe_only_throws (args : BaseParams) (env : Env) :
    match platformOf args with
    | some pl =>
        if containsPipe (pl.name.getD "") then
          mkBase args env = .error "Platform name cannot contain a \"|\" value."
        else if containsPipe (pl.version.getD "") then
          mkBase args env = .error "Platform version cannot contain a \"|\" value."
        else ∃ c, mkBase args env = .ok c
    | none => ∃ c, mkBase args env = .ok c := by
  rcases args with _ | p | ⟨tid, tsec⟩ | o
  · exact ⟨_, rfl⟩
  · exact ⟨_, rfl⟩
  · exact ⟨_, rfl⟩
  · rcases o with ⟨otid, otsec, _ | ⟨pn, pv⟩⟩
    · exact ⟨_, rfl⟩
    · simp only [platformOf, mkBase, buildPlatformHeaders]
      split
      · rfl
      · split
        · rfl
        · rcases pn with _ | n <;> exact ⟨_, rfl⟩

/-- C4 witness: at a concrete pipe-carrying name the constructor throws the
name-identifying error, and at a concrete pipe-free input it succeeds. -/
theorem C4_pipe_only_throws_witness :
    mkBase (.fromOptions ⟨none, none, some ⟨some "A|B", some "1.0"⟩⟩) ⟨none, none⟩
      = .error "Platform name cannot contain a \"|\" value."
    ∧ ∃ c, mkBase (.fromOptions ⟨none, none, some ⟨some "Foo", some "1.0"⟩⟩) ⟨none, none⟩
      = .ok c :=
  ⟨C4_pipe_only_throws
      (.fromOptions ⟨none, none, some ⟨some "A|B", some "1.0"⟩⟩) ⟨none, none⟩,
   C4_pipe_only_throws
      (.fromOptions ⟨none, none, some ⟨some "Foo", some "1.0"⟩⟩) ⟨none, none⟩⟩

/-- C5: for pipe-free platform metadata — with both name and version the
transport carries `x-source-platform` equal to `name ++ " | " ++ version`;
with a name but no version the header carries the literal placeholder
`undefined`; with no name (even if a version is supplied) no such header is
present. -/
theorem C5_platform_header :
    (∀ (n v : String) (env : Env), containsPipe n = false → containsPipe v = false →
       ∃ c, mkBase (.fromOptions ⟨none, none, some ⟨some n, some v⟩⟩) env = .ok c
         ∧ sourcePlatformHeader c = some (n ++ " | " ++ v))
    ∧ (∀ (n : String) (env : Env), containsPipe n = false →
       ∃ c, mkBase (.fromOptions ⟨none, none, some ⟨some n, none⟩⟩) env = .ok c
         ∧ sourcePlatformHeader c = some (n ++ " | " ++ "undefined"))
    ∧ (∀ (v : Option String) (env : Env), containsPipe (v.getD "") = false →
       ∃ c, mkBase (.fromOptions ⟨none, none, some ⟨none, v⟩⟩) env = .ok c
         ∧ sourcePlatformHeader c = none) := by
  refine ⟨?_, ?_, ?_⟩
  · intro n v env hn hv
    refine ⟨⟨env.muxTokenId, env.muxTokenSecret,
            ⟨muxBaseURL, env.muxTokenId, env.muxTokenSecret,
             [("x-source-platform", n ++ " | " ++ v)]⟩⟩, ?_, ?_⟩
    · simp [mkBase, buildPlatformHeaders, platformOf, resolveCredentials, hn, hv]
    · rfl
  · intro n env hn
    refine ⟨⟨env.muxTokenId, env.muxTokenSecret,
            ⟨muxBaseURL, env.muxTokenId, env.muxTokenSecret,
             [("x-source-platform", n ++ " | " ++ "undefined")]⟩⟩, ?_, ?_⟩
    · have h0 : containsPipe "" = false := by decide
      simp [mkBase, buildPlatformHeaders, platformOf, resolveCredentials, hn, h0]
    · rfl
  · intro v env hv
    refine ⟨⟨env.muxTokenId, env.muxTokenSecret,
            ⟨muxBaseURL, env.muxTokenId, env.muxTokenSecret, []⟩⟩, ?_, ?_⟩
    · have h0 : containsPipe "" = false := by decide
      simp [mkBase, buildPlatformHeaders, platformOf, resolveCredentials, hv, h0]
    · rfl

/-- C5 witness: the three header behaviours at concrete inputs. -/
theorem C5_platform_header_witness :
    (∃ c, mkBase (.fromOptions ⟨none, none, some ⟨some "Foo", some "1.0.0"⟩⟩) ⟨none, none⟩ = .ok c
       ∧ sourcePlatformHeader c = some ("Foo" ++ " | " ++ "1.0.0"))
    ∧ (∃ c, mkBase (.fromOptions ⟨none, none, some ⟨some "Foo", none⟩⟩) ⟨none, none⟩ = .ok c
       ∧ sourcePlatformHeader c = some ("Foo" ++ " | " ++ "undefined"))
    ∧ (∃ c, mkBase (.fromOptions ⟨none, none, some ⟨none, some "1.0.0"⟩⟩) ⟨none, none⟩ = .ok c
       ∧ sourcePlatformHeader c = none) :=
  ⟨C5_platform_header.1 "Foo" "1.0.0" ⟨none, none⟩ (by decide) (by decide),
   C5_platform_header.2.1 "Foo" ⟨none, none⟩ (by decide),
   C5_platform_header.2.2 (some "1.0.0") ⟨none, none⟩ (by decide)⟩

/-- C6 counterexample: `RealTime.breakdown` performs more than one
required-field presence check — two inputs, each supplying one of the two
required fields and omitting the other, both throw, with two distinct
descriptive error messages; while the fully supplied input does not throw.
This refutes "at most one presence/required-field check ... throwing ...
when that one required field is missing". -/
theorem C6_two_checks_counterexample :
    RealTime.breakdown "" (some ⟨some "asn", none, none⟩)
      = .error "A metric Id is required for real-time breakdown information"
    ∧ RealTime.breakdown "current-concurrent-viewers" none
      = .error "The dimension query parameter is required for real-time breakdown information"
    ∧ ("A metric Id is required for real-time breakdown information" : String)
      ≠ "The dimension query parameter is required for real-time breakdown information"
    ∧ isThrow (RealTime.breakdown "current-concurrent-viewers"
        (some ⟨some "asn", none, none⟩)) = false :=
  ⟨rfl, rfl, by decide, rfl⟩

/-- C6 amended: each wrapper method performs only required-field presence
checks — none for `dimensions`, `metrics`, `Errors.list`,
`VideoViews.list`; exactly one (the identifier) for `histogramTimeseries`,
`timeseries`, `VideoViews.get`; two for `breakdown` (metricId, then the
dimension query parameter) — and whenever a method does not throw it issues
exactly one HTTP GET through the shared transport and returns the resulting
promise unmodified. -/
theorem C6_wrapper_contract :
    (okIsSingleGet RealTime.dimensions ∧ isThrow RealTime.dimensions = false)
    ∧ (okIsSingleGet RealTime.metrics ∧ isThrow RealTime.metrics = false)
    ∧ (∀ m p, okIsSingleGet (RealTime.breakdown m p)
        ∧ isThrow (RealTime.breakdown m p) = (m.isEmpty || dimensionMissing p))
    ∧ (∀ m p, okIsSingleGet (RealTime.histogramTimeseries m p)
        ∧ isThrow (RealTime.histogramTimeseries m p) = m.isEmpty)
    ∧ (∀ m p, okIsSingleGet (RealTime.timeseries m p)
        ∧ isThrow (RealTime.timeseries m p) = m.isEmpty)
    ∧ (∀ p, okIsSingleGet (Errors.list p) ∧ isThrow (Errors.list p) = false)
    ∧ (∀ p, okIsSingleGet (VideoViews.list p) ∧ isThrow (VideoViews.list p) = false)
    ∧ (∀ v, okIsSingleGet (VideoViews.get v)
        ∧ isThrow (VideoViews.get v) = v.isEmpty) := by
  refine ⟨⟨trivial, rfl⟩, ⟨trivial, rfl⟩, ?_, ?_, ?_, ?_, ?_, ?_⟩
  · intro m p
    unfold RealTime.breakdown
    rcases hm : m.isEmpty with _ | _ <;> rcases hd : dimensionMissing p with _ | _ <;>
      simp [hm, hd, okIsSingleGet, isThrow, isSingleGet]
  · intro m p
    unfold RealTime.histogramTimeseries
    rcases hm : m.isEmpty with _ | _ <;>
      simp [hm, okIsSingleGet, isThrow, isSingleGet]
  · intro m p
    unfold RealTime.timeseries
    rcases hm : m.isEmpty with _ | _ <;>
      simp [hm, okIsSingleGet, isThrow, isSingleGet]
  · intro p
    exact ⟨trivial, rfl⟩
  · intro p
    exact ⟨trivial, rfl⟩
  · intro v
    unfold VideoViews.get
    rcases hv : v.isEmpty with _ | _ <;>
      simp [hv, okIsSingleGet, isThrow, isSingleGet]

/-- C7: `RealTime.breakdown` throws the metric-naming error when the metric
id is falsy; throws the dimension-naming error when the metric id is
supplied but the dimension query parameter is absent (no params object, or
a falsy `dimension` field); and with both supplied it issues exactly one
GET to `/data/v1/realtime/metrics/{metricId}/breakdown`, passing the params
object through. -/
theorem C7_breakdown_contract :
    (∀ p, RealTime.breakdown "" p
        = .error "A metric Id is required for real-time breakdown information")
    ∧ (∀ m, m.isEmpty = false → RealTime.breakdown m none
        = .error "The dimension query parameter is required for real-time breakdown information")
    ∧ (∀ m p, m.isEmpty = false → strFalsy p.dimension = true →
        RealTime.breakdown m (some p)
        = .error "The dimension query parameter is required for real-time breakdown information")
    ∧ (∀ m p, m.isEmpty = false → strFalsy p.dimension = false →
        RealTime.breakdown m (some p)
        = .ok [.get (realTimePATH ++ "/metrics/" ++ m ++ "/breakdown")
                (some (some p))]) := by
  refine ⟨fun p => rfl, ?_, ?_, ?_⟩
  · intro m hm
    simp [RealTime.breakdown, hm, dimensionMissing]
  · intro m p hm hd
    simp [RealTime.breakdown, hm, dimensionMissing, hd]
  · intro m p hm hd
    simp [RealTime.breakdown, hm, dimensionMissing, hd]

/-- C7 witness: the contract applied at concrete inputs — a missing metric
id, a missing dimension, and a fully supplied call that issues the GET. -/
theorem C7_breakdown_contract_witness :
    RealTime.breakdown "" none
      = .error "A metric Id is required for real-time breakdown information"
    ∧ RealTime.breakdown "current-concurrent-viewers" none
      = .error "The dimension query parameter is required for real-time breakdown information"
    ∧ RealTime.breakdown "current-concurrent-viewers" (some ⟨some "asn", none, none⟩)
      = .ok [.get (realTimePATH ++ "/metrics/" ++ "current-concurrent-viewers" ++ "/breakdown")
              (some (some ⟨some "asn", none, none⟩))] :=
  ⟨C7_breakdown_contract.1 none,
   C7_breakdown_contract.2.1 "current-concurrent-viewers" (by decide),
   C7_breakdown_contract.2.2.2 "current-concurrent-viewers" ⟨some "asn", none, none⟩
     (by decide) (by decide)⟩

/-- C8: `VideoViews.get` with a falsy video view id throws synchronously,
issuing no transport call; with a non-empty id it issues exactly one GET to
`/data/v1/video-views/{videoViewId}`. -/
theorem C8_video_view_get_contract :
    VideoViews.get "" = .error "A video view Id is required for video view details."
    ∧ (∀ id : String, id.isEmpty = false →
        VideoViews.get id = .ok [.get (videoViewsPATH ++ "/" ++ id) none]) := by
  refine ⟨rfl, ?_⟩
  intro id hid
  simp [VideoViews.get, hid]

/-- C8 witness: the contract applied at the empty id and at a concrete
non-empty id. -/
theorem C8_video_view_get_contract_witness :
    VideoViews.get "" = .error "A video view Id is required for video view details."
    ∧ VideoViews.get "ABCD1234"
      = .ok [.get (videoViewsPATH ++ "/" ++ "ABCD1234") none] :=
  ⟨C8_video_view_get_contract.1,
   C8_video_view_get_contract.2 "ABCD1234" (by decide)⟩

/-- C9: for one call issued through a facade built from explicit
credentials, the event trace invokes a `request`-channel listener exactly
once and a `response`-channel listener exactly once, the request event
occurs strictly before the response event, and the request event carries
the call's auth (username = token identifier, password = token secret),
base URL and path. -/
theorem C9_request_before_response (tid tsec : String) (env : Env)
    (path : String) (status : Nat) (body : String) :
    ∃ c, mkBase (.fromPair tid tsec) env = .ok c
      ∧ requestListenerInvocations (callTrace c path status body) = 1
      ∧ responseListenerInvocations (callTrace c path status body) = 1
      ∧ ∃ i j r s, i < j
          ∧ (callTrace c path status body).get? i = some (.request r)
          ∧ (callTrace c path status body).get? j = some (.response s)
          ∧ r.authUsername = some tid
          ∧ r.authPassword = some tsec
          ∧ r.baseURL = muxBaseURL
          ∧ r.url = path :=
  ⟨_, rfl, rfl, rfl,
   0, 1, _, _, Nat.zero_lt_one, rfl, rfl, rfl, rfl, rfl, rfl⟩

/-- C10: in `RealTime.breakdown` the metric-id check precedes the dimension
check — whenever the metric id is falsy the metric-id error is thrown, even
when params or the dimension are also missing; the dimension error can only
arise with a non-empty metric id. -/
theorem C10_breakdown_check_order :
    (∀ p, RealTime.breakdown "" p
        = .error "A metric Id is required for real-time breakdown information")
    ∧ (∀ m p, RealTime.breakdown m p
        = .error "The dimension query parameter is required for real-time breakdown information"
        → m.isEmpty = false) := by
  refine ⟨fun p => rfl, ?_⟩
  intro m p h
  rcases hm : m.isEmpty with _ | _
  · rfl
  · rw [RealTime.breakdown, if_pos hm] at h
    exact absurd (Except.error.inj h) (by decide)

/-- C10 witness: at the doubly missing input the metric-id error wins, and
the order fact applied to a concrete dimension-error input yields a
non-empty metric id. -/
theorem C10_breakdown_check_order_witness :
    RealTime.breakdown "" none
      = .error "A metric Id is required for real-time breakdown information"
    ∧ ("x" : String).isEmpty = false :=
  ⟨C10_breakdown_check_order.1 none,
   C10_breakdown_check_order.2 "x" none rfl⟩

end Mux
